import Mathlib

/-!
# Verification of `src/internal/lambda/scripts/run.py`

A shallow embedding of the invocation adapter `main(event, context)` from
`run.py`, together with theorems settling the specification claims about
it.  The adapter spawns the external `memorybox` binary as a child process,
optionally writes the event's `stdin` string to it, collects its standard
output and standard error, and returns a record with the exit code and the
two output streams gzip-compressed then base64-encoded.

Modelling choices, all from the source:

* Bytes are `Nat`s (< 256 where it matters); byte streams are `List Nat`.
* The collaborator binary is out of scope per the spec, so a `Child` is an
  arbitrary total function from the bytes it receives on standard input to
  its standard output bytes, standard error bytes and exit status.
* The operating system is a `World`: whether `Popen` succeeds, and the
  capacity of an OS pipe buffer.  A child that must write more than one
  pipe-buffer of output while nothing drains the pipe blocks forever; this
  is what makes the `wait()`-before-`read()` sequence of the stdin-absent
  path able to hang, exactly as the `subprocess` documentation warns.
* `communicate` writes the input, closes stdin, drains both output pipes
  concurrently and reaps the child; it cannot deadlock and returns the
  pair (stdout bytes, stderr bytes) — in that order.  The source unpacks
  this pair as `stderr, stdout = mb.communicate(...)`, which the embedding
  reproduces faithfully.
* `base64.b64encode` is implemented in full (standard alphabet, `=`
  padding).  `gzip.compress` is Python library code, not part of this
  repository; only its losslessness is relied on by the spec, so it is
  modelled by an executable lossless byte codec (run-length encoding with
  runs capped at 255) whose round-trip property is proved below.
* Python `str.encode()` (UTF-8) is implemented in full over code-point
  lists; it fails exactly on lone surrogates, as in CPython.
-/

namespace Run

/-! ## Bytes, the compressor model and base64 -/

/-- Run-length encode a byte stream into (byte, run-length) pairs, most
recent run first, with runs capped at 255 so a run length fits in a byte. -/
def rleEnc : List Nat → List (Nat × Nat)
  | [] => []
  | b :: rest =>
    match rleEnc rest with
    | [] => [(b, 1)]
    | (b2, k) :: t => if b2 = b ∧ k < 255 then (b, k + 1) :: t else (b, 1) :: (b2, k) :: t

/-- Expand (byte, run-length) pairs back into a byte stream. -/
def rleDec : List (Nat × Nat) → List Nat
  | [] => []
  | (b, k) :: t => List.replicate k b ++ rleDec t

/-- Model of `gzip.compress` (Python standard library, out of repository
scope): an executable lossless byte codec — run-length pairs serialised as
alternating byte and run-length.  Only losslessness of `gzip` is used by
the specification, and it is proved below as `gzip_roundtrip`. -/
def gzipCompress (bs : List Nat) : List Nat :=
  (rleEnc bs).flatMap (fun p => [p.1, p.2])

/-- Model of `gzip.decompress`: inverse of `gzipCompress`; `none` on a
stream that is not a valid compressed stream. -/
def gzipDecompress : List Nat → Option (List Nat)
  | [] => some []
  | b :: k :: rest => (gzipDecompress rest).map (fun t => List.replicate k b ++ t)
  | _ => none

/-- The standard base64 alphabet, as in `base64.b64encode`. -/
def b64Alphabet : List Char :=
  [ 'A', 'B', 'C', 'D', 'E', 'F', 'G', 'H', 'I', 'J', 'K', 'L', 'M',
    'N', 'O', 'P', 'Q', 'R', 'S', 'T', 'U', 'V', 'W', 'X', 'Y', 'Z',
    'a', 'b', 'c', 'd', 'e', 'f', 'g', 'h', 'i', 'j', 'k', 'l', 'm',
    'n', 'o', 'p', 'q', 'r', 's', 't', 'u', 'v', 'w', 'x', 'y', 'z',
    '0', '1', '2', '3', '4', '5', '6', '7', '8', '9', '+', '/' ]

/-- The base64 padding character. -/
def b64Pad : Char := '='

/-- The alphabet character for a 6-bit value. -/
def b64Char (v : Nat) : Char := b64Alphabet.getD v b64Pad

/-- The 6-bit value of an alphabet character; `none` for padding or any
character outside the alphabet. -/
def b64Val (c : Char) : Option Nat :=
  (b64Alphabet.findIdx? (fun a => a = c))

/-- Base64-encode a byte stream, three bytes to four characters, with `=`
padding on a final partial group, as `base64.b64encode` does. -/
def b64EncChunks : List Nat → List Char
  | [] => []
  | [a] => [b64Char (a / 4), b64Char (a % 4 * 16), b64Pad, b64Pad]
  | [a, b] => [b64Char (a / 4), b64Char (a % 4 * 16 + b / 16), b64Char (b % 16 * 4), b64Pad]
  | a :: b :: c :: rest =>
    b64Char (a / 4) :: b64Char (a % 4 * 16 + b / 16) ::
      b64Char (b % 16 * 4 + c / 64) :: b64Char (c % 64) :: b64EncChunks rest

/-- Base64-decode a character stream; `none` when it is not valid base64
output (length not a multiple of four, or a non-alphabet character in a
data position). -/
def b64DecChunks : List Char → Option (List Nat)
  | [] => some []
  | c0 :: c1 :: c2 :: c3 :: rest =>
    match b64Val c0, b64Val c1 with
    | some v0, some v1 =>
      if c2 = b64Pad then
        if c3 = b64Pad then some [v0 * 4 + v1 / 16] else none
      else
        match b64Val c2 with
        | some v2 =>
          if c3 = b64Pad then some [v0 * 4 + v1 / 16, v1 % 16 * 16 + v2 / 4]
          else
            match b64Val c3, b64DecChunks rest with
            | some v3, some bs =>
              some ((v0 * 4 + v1 / 16) :: (v1 % 16 * 16 + v2 / 4) ::
                    (v2 % 4 * 64 + v3) :: bs)
            | _, _ => none
        | none => none
    | _, _ => none
  | _ => none

/-- `str(base64.b64encode(...).decode())` applied to a byte stream: the
base64 text as a string. -/
def b64encodeStr (bs : List Nat) : String := String.mk (b64EncChunks bs)

/-- The whole output-field encoding of `run.py`:
`base64.b64encode(gzip.compress(bytes)).decode()`. -/
def encodeField (bs : List Nat) : String := b64encodeStr (gzipCompress bs)

/-- The decoding direction the spec's round-trip law speaks of: text-decode
the base64, then decompress. -/
def decodeField (s : String) : Option (List Nat) :=
  (b64DecChunks s.data).bind gzipDecompress

/-! ## Python strings and `str.encode()` -/

/-- A Python `str` value: a list of code points.  Unlike a Lean `String` it
may contain lone surrogates, which is exactly the case where `.encode()`
raises `UnicodeEncodeError`. -/
def PyStr : Type := List Nat

/-- UTF-8 encoding of a single scalar value, as CPython emits it. -/
def utf8EncodeChar (c : Nat) : List Nat :=
  if c < 128 then [c]
  else if c < 2048 then [192 + c / 64, 128 + c % 64]
  else if c < 65536 then [224 + c / 4096, 128 + c / 64 % 64, 128 + c % 64]
  else [240 + c / 262144, 128 + c / 4096 % 64, 128 + c / 64 % 64, 128 + c % 64]

/-- Whether a code point is UTF-8 encodable by CPython's default codec:
in range and not a surrogate. -/
def utf8Encodable (c : Nat) : Bool := decide (c < 1114112) && !(decide (55296 ≤ c) && decide (c < 57344))

/-- Python `s.encode()`: the UTF-8 bytes of the string, or `none` when some
code point is a lone surrogate or out of range (`UnicodeEncodeError`). -/
def pyEncodeUtf8 (s : PyStr) : Option (List Nat) :=
  if s.all utf8Encodable then some (s.flatMap utf8EncodeChar) else none

/-! ## The data model: event, result, child, world -/

/-- The invocation event, a mapping that may or may not carry each key.
`args` and `config` are required by the data model but the mapping itself
does not enforce that; `stdin` is optional. -/
structure Event where
  args : Option (List String)
  config : Option String
  stdin : Option PyStr

/-- The invocation result: the dict literal of `run.py`, always carrying
all three fields. -/
structure Result where
  code : Int
  stdout : String
  stderr : String
deriving DecidableEq

/-- The collaborator binary, an opaque external process: a total behaviour
from the bytes it receives on standard input to its two output streams and
its exit status. -/
structure Child where
  out : List Nat → List Nat
  err : List Nat → List Nat
  exitCode : List Nat → Int

/-- The operating-system facts one invocation depends on: whether `Popen`
can spawn the process at all, and the capacity of one OS pipe buffer
(65536 bytes on Linux). -/
structure World where
  spawnOk : Bool
  pipeCapacity : Nat

/-- What `Popen` was invoked with: the argument vector and the (exactly
two-entry) environment built on lines 7-10 of `run.py`. -/
structure LaunchSpec where
  argv : List String
  env : List (String × String)
deriving DecidableEq

/-- Observable final facts of one adapter call: whether and what was
launched, how many child processes were spawned, whether the child was
reaped (waited for) before the adapter returned or raised, whether the
child's stdin was closed, and the bytes written to it. -/
structure FinalState where
  launched : Option LaunchSpec
  spawned : Nat
  reaped : Bool
  stdinClosed : Bool
  stdinWritten : List Nat
deriving DecidableEq

/-- Adapter-level failures: `KeyError` from `event['args']`/`event['config']`,
`Popen` raising (spawn failure), and `UnicodeEncodeError` from
`event["stdin"].encode()`. -/
inductive AdapterError where
  | keyError
  | spawnError
  | encodeError
deriving DecidableEq

/-- How one adapter call ends: returning a result, propagating an
adapter-level error, or blocking forever. -/
inductive Outcome where
  | ok (r : Result)
  | err (e : AdapterError)
  | hang
deriving DecidableEq

/-- No process was ever launched. -/
def noLaunch : FinalState :=
  { launched := none, spawned := 0, reaped := false, stdinClosed := false, stdinWritten := [] }

/-! ## The adapter, `main(event, context)` of `run.py` -/

/-- `main(event, context)` from `run.py`, line by line.

* `event['args']` and `event['config']` are read while building the
  `Popen` call, so a missing key raises `KeyError` before any spawn.
* `Popen` spawns the child with argv `["./memorybox"] + event['args'][1:]`
  and environment exactly `{MEMORYBOX_LAMBDA_MODE: "true",
  MEMORYBOX_CONFIG: event['config']}`.
* If `"stdin" in event`: `event["stdin"].encode()` is evaluated first; if
  it raises, the exception propagates with the child neither reaped nor
  its stdin closed.  Otherwise `mb.communicate(bytes)` writes the bytes,
  closes stdin, drains both pipes concurrently and reaps the child; it
  returns the pair (stdout bytes, stderr bytes), which the source unpacks
  as `stderr, stdout = ...` — reversed.
* Otherwise the source closes stdin, calls `mb.wait()`, and only then
  reads the pipes; `wait()` returns only if the child's whole output fits
  the pipe buffers, else child and adapter block forever.
* The returned dict compresses and base64-encodes each captured stream. -/
def main (w : World) (child : Child) (event : Event) (context : Unit) :
    Outcome × FinalState :=
  match context with
  | () =>
    match event.args with
    | none => (.err .keyError, noLaunch)
    | some args =>
      match event.config with
      | none => (.err .keyError, noLaunch)
      | some config =>
        let spec : LaunchSpec :=
          { argv := "./memorybox" :: args.drop 1,
            env := [("MEMORYBOX_LAMBDA_MODE", "true"), ("MEMORYBOX_CONFIG", config)] }
        if w.spawnOk then
          match event.stdin with
          | some s =>
            match pyEncodeUtf8 s with
            | none =>
              (.err .encodeError,
               { launched := some spec, spawned := 1, reaped := false,
                 stdinClosed := false, stdinWritten := [] })
            | some bs =>
              -- source: stderr, stdout = mb.communicate(event["stdin"].encode())
              -- communicate returns (stdout bytes, stderr bytes); the
              -- unpacking order makes the local `stdout` hold stderr bytes.
              (.ok { code := child.exitCode bs,
                     stdout := encodeField (child.err bs),
                     stderr := encodeField (child.out bs) },
               { launched := some spec, spawned := 1, reaped := true,
                 stdinClosed := true, stdinWritten := bs })
          | none =>
            -- source: mb.stdin.close(); mb.wait(); stdout = mb.stdout.read(); ...
            if (child.out []).length ≤ w.pipeCapacity ∧
               (child.err []).length ≤ w.pipeCapacity then
              (.ok { code := child.exitCode [],
                     stdout := encodeField (child.out []),
                     stderr := encodeField (child.err []) },
               { launched := some spec, spawned := 1, reaped := true,
                 stdinClosed := true, stdinWritten := [] })
            else
              (.hang,
               { launched := some spec, spawned := 1, reaped := false,
                 stdinClosed := true, stdinWritten := [] })
        else (.err .spawnError, noLaunch)

/-! ## Losslessness of the output-field encoding -/

/-- Run-length decoding undoes run-length encoding. -/
theorem rleDec_rleEnc (l : List Nat) : rleDec (rleEnc l) = l := by
  induction l with
  | nil => rfl
  | cons b rest ih =>
    simp only [rleEnc]
    cases h : rleEnc rest with
    | nil =>
      rw [h] at ih
      simp only [rleDec] at ih
      rw [← ih]
      simp [rleDec]
    | cons p t =>
      obtain ⟨b2, k⟩ := p
      rw [h] at ih
      show rleDec (if b2 = b ∧ k < 255 then (b, k + 1) :: t else (b, 1) :: (b2, k) :: t) =
        b :: rest
      by_cases hc : b2 = b ∧ k < 255
      · rw [if_pos hc]
        obtain ⟨hb, _⟩ := hc
        subst hb
        simp only [rleDec] at ih ⊢
        simp only [List.replicate_succ, List.cons_append]
        rw [ih]
      · rw [if_neg hc]
        simp only [rleDec] at ih ⊢
        simp [ih]

/-- Deserialising the flattened pair stream recovers the pair decoding. -/
theorem gzipDecompress_flat (ps : List (Nat × Nat)) :
    gzipDecompress (ps.flatMap (fun p => [p.1, p.2])) = some (rleDec ps) := by
  induction ps with
  | nil => rfl
  | cons p t ih =>
    obtain ⟨b, k⟩ := p
    show gzipDecompress (b :: k :: t.flatMap fun p => [p.1, p.2]) =
      some (List.replicate k b ++ rleDec t)
    simp only [gzipDecompress, ih]
    rfl

/-- The compressor model is lossless, which is the only property of
`gzip.compress`/`gzip.decompress` the specification relies on. -/
theorem gzip_roundtrip (l : List Nat) : gzipDecompress (gzipCompress l) = some l := by
  rw [gzipCompress, gzipDecompress_flat, rleDec_rleEnc]

/-- Decoding an alphabet character recovers its 6-bit value. -/
theorem b64Val_b64Char : ∀ v : Nat, v < 64 → b64Val (b64Char v) = some v := by decide

/-- No alphabet character is the padding character. -/
theorem b64Char_ne_pad : ∀ v : Nat, v < 64 → b64Char v ≠ b64Pad := by decide

/-- Base64 decoding undoes base64 encoding on genuine byte streams. -/
theorem b64_roundtrip :
    ∀ bs : List Nat, (∀ b ∈ bs, b < 256) → b64DecChunks (b64EncChunks bs) = some bs
  | [], _ => rfl
  | [a], h => by
    have ha : a < 256 := h a (by simp)
    have e0 : b64Val (b64Char (a / 4)) = some (a / 4) := b64Val_b64Char _ (by omega)
    have e1 : b64Val (b64Char (a % 4 * 16)) = some (a % 4 * 16) := b64Val_b64Char _ (by omega)
    simp [b64EncChunks, b64DecChunks, e0, e1]
    all_goals omega
  | [a, b], h => by
    have ha : a < 256 := h a (by simp)
    have hb : b < 256 := h b (by simp)
    have e0 : b64Val (b64Char (a / 4)) = some (a / 4) := b64Val_b64Char _ (by omega)
    have e1 : b64Val (b64Char (a % 4 * 16 + b / 16)) = some (a % 4 * 16 + b / 16) :=
      b64Val_b64Char _ (by omega)
    have e2 : b64Val (b64Char (b % 16 * 4)) = some (b % 16 * 4) := b64Val_b64Char _ (by omega)
    have n2 : b64Char (b % 16 * 4) ≠ b64Pad := b64Char_ne_pad _ (by omega)
    simp [b64EncChunks, b64DecChunks, e0, e1, e2, n2]
    all_goals omega
  | a :: b :: c :: rest, h => by
    have ha : a < 256 := h a (by simp)
    have hb : b < 256 := h b (by simp)
    have hc : c < 256 := h c (by simp)
    have ih := b64_roundtrip rest (fun x hx => h x (by simp [hx]))
    have e0 : b64Val (b64Char (a / 4)) = some (a / 4) := b64Val_b64Char _ (by omega)
    have e1 : b64Val (b64Char (a % 4 * 16 + b / 16)) = some (a % 4 * 16 + b / 16) :=
      b64Val_b64Char _ (by omega)
    have e2 : b64Val (b64Char (b % 16 * 4 + c / 64)) = some (b % 16 * 4 + c / 64) :=
      b64Val_b64Char _ (by omega)
    have e3 : b64Val (b64Char (c % 64)) = some (c % 64) := b64Val_b64Char _ (by omega)
    have n2 : b64Char (b % 16 * 4 + c / 64) ≠ b64Pad := b64Char_ne_pad _ (by omega)
    have n3 : b64Char (c % 64) ≠ b64Pad := b64Char_ne_pad _ (by omega)
    simp [b64EncChunks, b64DecChunks, e0, e1, e2, e3, n2, n3, ih]
    all_goals omega

/-- Every run recorded by the encoder names a byte of the input and a run
length between 1 and 255. -/
theorem rleEnc_mem :
    ∀ {l : List Nat} {b k : Nat}, (b, k) ∈ rleEnc l → b ∈ l ∧ 1 ≤ k ∧ k ≤ 255 := by
  intro l
  induction l with
  | nil => intro b k hm; simp [rleEnc] at hm
  | cons a rest ih =>
    intro b k hm
    simp only [rleEnc] at hm
    cases hr : rleEnc rest with
    | nil =>
      rw [hr] at hm
      have hm2 : (b, k) ∈ [(a, 1)] := hm
      simp only [List.mem_singleton, Prod.mk.injEq] at hm2
      obtain ⟨hb, hk⟩ := hm2
      subst hb; subst hk
      simp
    | cons p t =>
      obtain ⟨b2, k2⟩ := p
      rw [hr] at hm
      have hm2 : (b, k) ∈
          (if b2 = a ∧ k2 < 255 then (a, k2 + 1) :: t else (a, 1) :: (b2, k2) :: t) := hm
      by_cases hc : b2 = a ∧ k2 < 255
      · rw [if_pos hc] at hm2
        rcases List.mem_cons.mp hm2 with he | ht
        · rw [Prod.mk.injEq] at he
          obtain ⟨hb, hk⟩ := he
          subst hb; subst hk
          exact ⟨List.mem_cons_self _ _, by omega, by omega⟩
        · have hmem : (b, k) ∈ rleEnc rest := hr ▸ List.mem_cons_of_mem (b2, k2) ht
          have hrec := ih hmem
          exact ⟨List.mem_cons_of_mem a hrec.1, hrec.2⟩
      · rw [if_neg hc] at hm2
        rcases List.mem_cons.mp hm2 with he | ht
        · rw [Prod.mk.injEq] at he
          obtain ⟨hb, hk⟩ := he
          subst hb; subst hk
          exact ⟨List.mem_cons_self _ _, by omega, by omega⟩
        · have hmem : (b, k) ∈ rleEnc rest := hr ▸ ht
          have hrec := ih hmem
          exact ⟨List.mem_cons_of_mem a hrec.1, hrec.2⟩

/-- Compressed streams of genuine byte streams are genuine byte streams. -/
theorem gzipCompress_bytes_lt (bs : List Nat) (h : ∀ b ∈ bs, b < 256) :
    ∀ x ∈ gzipCompress bs, x < 256 := by
  intro x hx
  rw [gzipCompress] at hx
  rcases List.mem_flatMap.mp hx with ⟨p, hp, hxp⟩
  obtain ⟨b, k⟩ := p
  have hm := rleEnc_mem hp
  have hxp2 : x = b ∨ x = k := by simpa using hxp
  have hk := hm.2.2
  rcases hxp2 with rfl | rfl
  · exact h x hm.1
  · omega

/-- The spec's round-trip law holds of the field encoding itself:
text-decoding then decompressing `encodeField bs` recovers `bs`. -/
theorem decodeField_encodeField (bs : List Nat) (h : ∀ b ∈ bs, b < 256) :
    decodeField (encodeField bs) = some bs := by
  rw [decodeField, encodeField, b64encodeStr]
  show (b64DecChunks (b64EncChunks (gzipCompress bs))).bind gzipDecompress = some bs
  rw [b64_roundtrip _ (gzipCompress_bytes_lt bs h)]
  show gzipDecompress (gzipCompress bs) = some bs
  exact gzip_roundtrip bs

/-! ## Concrete worlds, collaborators and events used below -/

/-- A Linux-like world: `Popen` succeeds, pipe buffers hold 65536 bytes. -/
def linuxWorld : World := { spawnOk := true, pipeCapacity := 65536 }

/-- A stub collaborator: stdout bytes `[10, 20]`, stderr byte `[30]`, exit 0. -/
def stubChild : Child :=
  { out := fun _ => [10, 20], err := fun _ => [30], exitCode := fun _ => 0 }

/-- A stub collaborator that writes nothing and exits with status 137. -/
def stubChild137 : Child :=
  { out := fun _ => [], err := fun _ => [], exitCode := fun _ => 137 }

/-- A collaborator writing one byte more than a pipe buffer to stdout. -/
def floodOutChild : Child :=
  { out := fun _ => List.replicate 65537 65, err := fun _ => [], exitCode := fun _ => 0 }

/-- A collaborator writing one byte more than a pipe buffer to stderr. -/
def floodErrChild : Child :=
  { out := fun _ => [], err := fun _ => List.replicate 65537 66, exitCode := fun _ => 0 }

/-- An event with `stdin` present (the string "hi"). -/
def eventStdin : Event :=
  { args := some ["handler"], config := some "cfg", stdin := some [104, 105] }

/-- An event with `stdin` absent. -/
def eventNoStdin : Event :=
  { args := some ["handler"], config := some "cfg", stdin := none }

/-- An event whose `stdin` is a lone surrogate U+D800, which
`str.encode()` cannot encode. -/
def eventBadStdin : Event :=
  { args := some ["handler"], config := some "cfg", stdin := some [55296] }

/-- An event missing the required `args` key. -/
def eventNoArgs : Event :=
  { args := none, config := some "cfg", stdin := none }

/-! ## Shared facts about `main` -/

/-- Whenever both keys are present and the spawn succeeds, `Popen` is
invoked with argv `["./memorybox"] + args[1:]` and exactly the two
environment entries of lines 7-10, whatever `stdin` holds. -/
theorem main_launched (w : World) (child : Child) (args : List String) (cfg : String)
    (sin : Option PyStr) (hspawn : w.spawnOk = true) :
    (main w child { args := some args, config := some cfg, stdin := sin } ()).2.launched =
      some { argv := "./memorybox" :: args.drop 1,
             env := [("MEMORYBOX_LAMBDA_MODE", "true"), ("MEMORYBOX_CONFIG", cfg)] } := by
  obtain ⟨so, cap⟩ := w
  simp only at hspawn
  subst hspawn
  simp only [main]
  cases sin with
  | none =>
    dsimp only
    by_cases hcond : (child.out []).length ≤ cap ∧ (child.err []).length ≤ cap
    · rw [if_pos hcond]
      simp
    · rw [if_neg hcond]
      simp
  | some s =>
    dsimp only
    cases henc : pyEncodeUtf8 s <;> simp [henc]

/-- The launch-argument construction of lines 7-10 raises `KeyError` before
any spawn when the `args` key is absent. -/
theorem main_missing_args (w : World) (child : Child) (ec : Option String)
    (es : Option PyStr) :
    main w child { args := none, config := ec, stdin := es } () =
      (.err .keyError, noLaunch) := rfl

/-- The launch-argument construction raises `KeyError` before any spawn
when the `config` key is absent. -/
theorem main_missing_config (w : World) (child : Child) (args : List String)
    (es : Option PyStr) :
    main w child { args := some args, config := none, stdin := es } () =
      (.err .keyError, noLaunch) := rfl

/-- `Popen` raising is propagated with nothing spawned. -/
theorem main_spawn_fail (w : World) (child : Child) (args : List String) (cfg : String)
    (es : Option PyStr) (hspawn : w.spawnOk = false) :
    main w child { args := some args, config := some cfg, stdin := es } () =
      (.err .spawnError, noLaunch) := by
  obtain ⟨so, cap⟩ := w
  simp only at hspawn
  subst hspawn
  rfl

/-- The stdin-present path, line 12: `communicate` writes the encoded
bytes, closes stdin, drains both pipes and reaps — and its (stdout,
stderr) pair is unpacked in reversed order by the source. -/
theorem main_communicate (w : World) (child : Child) (args : List String) (cfg : String)
    (s : PyStr) (bs : List Nat) (hspawn : w.spawnOk = true) (henc : pyEncodeUtf8 s = some bs) :
    main w child { args := some args, config := some cfg, stdin := some s } () =
      (.ok { code := child.exitCode bs,
             stdout := encodeField (child.err bs),
             stderr := encodeField (child.out bs) },
       { launched := some { argv := "./memorybox" :: args.drop 1,
                            env := [("MEMORYBOX_LAMBDA_MODE", "true"),
                                    ("MEMORYBOX_CONFIG", cfg)] },
         spawned := 1, reaped := true, stdinClosed := true, stdinWritten := bs }) := by
  obtain ⟨so, cap⟩ := w
  simp only at hspawn
  subst hspawn
  simp only [main]
  rw [henc]
  rfl

/-- The stdin-present path when `event["stdin"].encode()` raises: the
error propagates with the spawned child neither reaped nor closed. -/
theorem main_encode_fail (w : World) (child : Child) (args : List String) (cfg : String)
    (s : PyStr) (hspawn : w.spawnOk = true) (henc : pyEncodeUtf8 s = none) :
    main w child { args := some args, config := some cfg, stdin := some s } () =
      (.err .encodeError,
       { launched := some { argv := "./memorybox" :: args.drop 1,
                            env := [("MEMORYBOX_LAMBDA_MODE", "true"),
                                    ("MEMORYBOX_CONFIG", cfg)] },
         spawned := 1, reaped := false, stdinClosed := false, stdinWritten := [] }) := by
  obtain ⟨so, cap⟩ := w
  simp only at hspawn
  subst hspawn
  simp only [main]
  rw [henc]
  rfl

/-- The stdin-absent path, lines 14-17, when the child's whole output fits
the pipe buffers: `wait()` returns and both streams are read in full. -/
theorem main_wait_read (w : World) (child : Child) (args : List String) (cfg : String)
    (hspawn : w.spawnOk = true)
    (hout : (child.out []).length ≤ w.pipeCapacity)
    (herr : (child.err []).length ≤ w.pipeCapacity) :
    main w child { args := some args, config := some cfg, stdin := none } () =
      (.ok { code := child.exitCode [],
             stdout := encodeField (child.out []),
             stderr := encodeField (child.err []) },
       { launched := some { argv := "./memorybox" :: args.drop 1,
                            env := [("MEMORYBOX_LAMBDA_MODE", "true"),
                                    ("MEMORYBOX_CONFIG", cfg)] },
         spawned := 1, reaped := true, stdinClosed := true, stdinWritten := [] }) := by
  obtain ⟨so, cap⟩ := w
  simp only at hspawn hout herr
  subst hspawn
  simp only [main]
  rw [if_pos (And.intro hout herr)]
  rfl

/-- The stdin-absent path when the child's output exceeds a pipe buffer:
the unread full pipe blocks the child, `wait()` never returns, and the
call hangs with the child unreaped. -/
theorem main_wait_hang (w : World) (child : Child) (args : List String) (cfg : String)
    (hspawn : w.spawnOk = true)
    (hbig : ¬((child.out []).length ≤ w.pipeCapacity ∧
              (child.err []).length ≤ w.pipeCapacity)) :
    main w child { args := some args, config := some cfg, stdin := none } () =
      (.hang,
       { launched := some { argv := "./memorybox" :: args.drop 1,
                            env := [("MEMORYBOX_LAMBDA_MODE", "true"),
                                    ("MEMORYBOX_CONFIG", cfg)] },
         spawned := 1, reaped := false, stdinClosed := true, stdinWritten := [] }) := by
  obtain ⟨so, cap⟩ := w
  simp only at hspawn hbig
  subst hspawn
  simp only [main]
  rw [if_neg hbig]
  rfl

/-- `true` when an adapter call ended at all — by returning a result or by
propagating an error — and `false` when it blocked forever. -/
def settled : Outcome → Bool
  | .hang => false
  | _ => true

/-! ## The claims -/

/-- C1: the claim that decoding `result.stdout` reproduces the child's raw
standard-output bytes in both paths is FALSE on the stdin-present path.
`communicate` returns the pair (stdout bytes, stderr bytes), but line 12 of
`run.py` unpacks it as `stderr, stdout = mb.communicate(...)`, so for a
collaborator with stdout `[10, 20]` and stderr `[30]` the result's
`stdout` field decodes to `[30]` — the stderr bytes — and its `stderr`
field decodes to `[10, 20]`. -/
theorem c1_stdout_decodes_to_stderr :
    (main linuxWorld stubChild eventStdin ()).1 =
      .ok { code := 0, stdout := encodeField [30], stderr := encodeField [10, 20] } ∧
    decodeField (encodeField [30]) = some [30] ∧
    decodeField (encodeField [10, 20]) = some [10, 20] ∧
    stubChild.out [104, 105] = [10, 20] ∧
    stubChild.err [104, 105] = [30] ∧
    ([30] : List Nat) ≠ [10, 20] := by
  refine ⟨rfl, rfl, rfl, rfl, rfl, by decide⟩

/-- C2: the claim that the adapter never blocks indefinitely is FALSE on
the stdin-absent path.  The source calls `mb.wait()` before reading either
pipe, so a collaborator that writes one byte more than a pipe buffer to
stdout can never finish writing, `wait()` never returns, and the call
hangs. -/
theorem c2_wait_deadlocks :
    (main linuxWorld floodOutChild eventNoStdin ()).1 = .hang := by
  have hbig : ¬((floodOutChild.out []).length ≤ (65536 : Nat) ∧
      (floodOutChild.err []).length ≤ (65536 : Nat)) := by
    rw [show floodOutChild.out [] = List.replicate 65537 65 from rfl, List.length_replicate]
    omega
  show (main linuxWorld floodOutChild
      { args := some ["handler"], config := some "cfg", stdin := none } ()).1 = .hang
  rw [main_wait_hang linuxWorld floodOutChild ["handler"] "cfg" rfl hbig]

/-- C3: the claim that the child is reaped on every exit path is FALSE on
the stdin-encoding-failure path.  For an event whose `stdin` holds a lone
surrogate, `event["stdin"].encode()` raises after `Popen` has already
spawned the child, and the exception propagates with the child neither
reaped nor its stdin closed. -/
theorem c3_child_leaked_on_encode_failure :
    (main linuxWorld stubChild eventBadStdin ()).1 = .err .encodeError ∧
    (main linuxWorld stubChild eventBadStdin ()).2.spawned = 1 ∧
    (main linuxWorld stubChild eventBadStdin ()).2.reaped = false := by
  refine ⟨rfl, rfl, rfl⟩

/-- C4: for every event whose `args` is non-empty, the collaborator is
launched with argument vector `[<binary-path>] + args[1:]`; `args[0]` is
discarded. -/
theorem c4_argv (w : World) (child : Child) (a0 cfg : String) (rest : List String)
    (sin : Option PyStr) (hspawn : w.spawnOk = true) :
    ((main w child { args := some (a0 :: rest), config := some cfg, stdin := sin } ()).2.launched).map
        LaunchSpec.argv =
      some ("./memorybox" :: rest) := by
  rw [main_launched w child (a0 :: rest) cfg sin hspawn]
  rfl

/-- C4 witness: for `args = ["handler", "a", "b"]` the collaborator's
argument vector is exactly `["./memorybox", "a", "b"]`. -/
theorem c4_argv_witness :
    ((main linuxWorld stubChild
        { args := some ["handler", "a", "b"], config := some "cfg", stdin := none } ()).2.launched).map
        LaunchSpec.argv =
      some ["./memorybox", "a", "b"] :=
  c4_argv linuxWorld stubChild "handler" "cfg" ["a", "b"] none rfl

/-- C5: the child's environment is exactly the two entries
`MEMORYBOX_LAMBDA_MODE = "true"` and `MEMORYBOX_CONFIG = <config>`. -/
theorem c5_env (w : World) (child : Child) (args : List String) (cfg : String)
    (sin : Option PyStr) (hspawn : w.spawnOk = true) :
    ((main w child { args := some args, config := some cfg, stdin := sin } ()).2.launched).map
        LaunchSpec.env =
      some [("MEMORYBOX_LAMBDA_MODE", "true"), ("MEMORYBOX_CONFIG", cfg)] := by
  rw [main_launched w child args cfg sin hspawn]
  rfl

/-- C5 witness: the two environment entries at a concrete event. -/
theorem c5_env_witness :
    ((main linuxWorld stubChild eventStdin ()).2.launched).map LaunchSpec.env =
      some [("MEMORYBOX_LAMBDA_MODE", "true"), ("MEMORYBOX_CONFIG", "cfg")] :=
  c5_env linuxWorld stubChild ["handler"] "cfg" (some [104, 105]) rfl

/-- C6: with `stdin` present and encodable, the bytes written to the
child's standard input are exactly the UTF-8 encoding of the string, and
the stream is then closed, so the child sees end-of-input after exactly
those bytes. -/
theorem c6_stdin_bytes (w : World) (child : Child) (args : List String) (cfg : String)
    (s : PyStr) (bs : List Nat) (hspawn : w.spawnOk = true) (henc : pyEncodeUtf8 s = some bs) :
    (main w child { args := some args, config := some cfg, stdin := some s } ()).2.stdinWritten
        = bs ∧
    (main w child { args := some args, config := some cfg, stdin := some s } ()).2.stdinClosed
        = true := by
  obtain ⟨so, cap⟩ := w
  simp only at hspawn
  subst hspawn
  simp only [main]
  rw [henc]
  exact ⟨rfl, rfl⟩

/-- C6 witness: for `stdin = "hi"` the child receives exactly the bytes
`[104, 105]` and then end-of-input. -/
theorem c6_stdin_bytes_witness :
    (main linuxWorld stubChild eventStdin ()).2.stdinWritten = [104, 105] ∧
    (main linuxWorld stubChild eventStdin ()).2.stdinClosed = true :=
  c6_stdin_bytes linuxWorld stubChild ["handler"] "cfg" [104, 105] [104, 105] rfl rfl

/-- C7: with `stdin` absent, the child's input stream is closed with zero
bytes written; the adapter waits for termination and then reads the full
contents of standard output and standard error into the result (stated for
a child whose output fits the pipe buffers, i.e. for which the wait
completes). -/
theorem c7_no_stdin (w : World) (child : Child) (args : List String) (cfg : String)
    (hspawn : w.spawnOk = true)
    (hout : (child.out []).length ≤ w.pipeCapacity)
    (herr : (child.err []).length ≤ w.pipeCapacity) :
    main w child { args := some args, config := some cfg, stdin := none } () =
      (.ok { code := child.exitCode [],
             stdout := encodeField (child.out []),
             stderr := encodeField (child.err []) },
       { launched := some { argv := "./memorybox" :: args.drop 1,
                            env := [("MEMORYBOX_LAMBDA_MODE", "true"),
                                    ("MEMORYBOX_CONFIG", cfg)] },
         spawned := 1, reaped := true, stdinClosed := true, stdinWritten := [] }) :=
  main_wait_read w child args cfg hspawn hout herr

/-- C7 witness: at a concrete event and collaborator, the stdin-absent
path returns the full captured streams with zero bytes written. -/
theorem c7_no_stdin_witness :
    main linuxWorld stubChild eventNoStdin () =
      (.ok { code := 0, stdout := encodeField [10, 20], stderr := encodeField [30] },
       { launched := some { argv := ["./memorybox"],
                            env := [("MEMORYBOX_LAMBDA_MODE", "true"),
                                    ("MEMORYBOX_CONFIG", "cfg")] },
         spawned := 1, reaped := true, stdinClosed := true, stdinWritten := [] }) :=
  c7_no_stdin linuxWorld stubChild ["handler"] "cfg" rfl (by decide) (by decide)

/-- C8: whenever the adapter returns a result, its `code` field is the
collaborator's real exit status — the child's exit code on the input it
was actually fed — whatever its value; a non-zero status is surfaced, not
raised. -/
theorem c8_exit_code (w : World) (child : Child) (e : Event) (r : Result) (fs : FinalState)
    (h : main w child e () = (.ok r, fs)) :
    r.code = child.exitCode fs.stdinWritten := by
  obtain ⟨ea, ec, es⟩ := e
  cases ea with
  | none =>
    rw [main_missing_args w child ec es] at h
    simp at h
  | some args =>
    cases ec with
    | none =>
      rw [main_missing_config w child args es] at h
      simp at h
    | some cfg =>
      cases hso : w.spawnOk with
      | false =>
        rw [main_spawn_fail w child args cfg es hso] at h
        simp at h
      | true =>
        cases es with
        | some s =>
          cases henc : pyEncodeUtf8 s with
          | none =>
            rw [main_encode_fail w child args cfg s hso henc] at h
            simp at h
          | some bs =>
            rw [main_communicate w child args cfg s bs hso henc] at h
            rw [Prod.mk.injEq] at h
            obtain ⟨h1, h2⟩ := h
            rw [Outcome.ok.injEq] at h1
            subst h1
            subst h2
            rfl
        | none =>
          by_cases hfits : (child.out []).length ≤ w.pipeCapacity ∧
              (child.err []).length ≤ w.pipeCapacity
          · rw [main_wait_read w child args cfg hso hfits.1 hfits.2] at h
            rw [Prod.mk.injEq] at h
            obtain ⟨h1, h2⟩ := h
            rw [Outcome.ok.injEq] at h1
            subst h1
            subst h2
            rfl
          · rw [main_wait_hang w child args cfg hso hfits] at h
            simp at h

/-- C8 witness: a collaborator exiting with status 137 is reported with
`code = 137`, not as an adapter error. -/
theorem c8_exit_code_witness :
    (Result.mk 137 (encodeField []) (encodeField [])).code = stubChild137.exitCode [] :=
  c8_exit_code linuxWorld stubChild137 eventNoStdin
    (Result.mk 137 (encodeField []) (encodeField []))
    { launched := some { argv := ["./memorybox"],
                         env := [("MEMORYBOX_LAMBDA_MODE", "true"),
                                 ("MEMORYBOX_CONFIG", "cfg")] },
      spawned := 1, reaped := true, stdinClosed := true, stdinWritten := [] }
    rfl

/-- C9: the claim that every invocation either produces a complete result
record or fails outright with a propagated error is FALSE: on the
stdin-absent path with a collaborator whose stderr exceeds one pipe
buffer, the adapter neither returns nor raises — it blocks forever in
`wait()`. -/
theorem c9_result_or_error_fails :
    settled (main linuxWorld floodErrChild eventNoStdin ()).1 = false := by
  have hbig : ¬((floodErrChild.out []).length ≤ (65536 : Nat) ∧
      (floodErrChild.err []).length ≤ (65536 : Nat)) := by
    rw [show floodErrChild.err [] = List.replicate 65537 66 from rfl, List.length_replicate]
    omega
  show settled (main linuxWorld floodErrChild
      { args := some ["handler"], config := some "cfg", stdin := none } ()).1 = false
  rw [main_wait_hang linuxWorld floodErrChild ["handler"] "cfg" rfl hbig]
  rfl

/-- C10: an event missing the required `args` or `config` key raises
`KeyError` while the `Popen` arguments are being built: no child process
is spawned, nothing is launched, and no result is returned. -/
theorem c10_missing_key (w : World) (child : Child) (e : Event)
    (h : e.args = none ∨ e.config = none) :
    (main w child e ()).1 = .err .keyError ∧
    (main w child e ()).2.spawned = 0 ∧
    (main w child e ()).2.launched = none := by
  obtain ⟨ea, ec, es⟩ := e
  rcases h with h | h
  · simp only at h
    subst h
    exact ⟨rfl, rfl, rfl⟩
  · simp only at h
    subst h
    cases ea with
    | none => exact ⟨rfl, rfl, rfl⟩
    | some args => exact ⟨rfl, rfl, rfl⟩

/-- C10 witness: an event without `args` fails with the key error and
spawns nothing. -/
theorem c10_missing_key_witness :
    (main linuxWorld stubChild eventNoArgs ()).1 = .err .keyError ∧
    (main linuxWorld stubChild eventNoArgs ()).2.spawned = 0 ∧
    (main linuxWorld stubChild eventNoArgs ()).2.launched = none :=
  c10_missing_key linuxWorld stubChild eventNoArgs (Or.inl rfl)

end Run
